import Mathlib

/-!
Shallow embedding of the darnviz audio-feature pipeline and transport glue.

Sources embedded:
* `webapp/src/context/AudioContext.js` — `handleAudioData`,
  `calculateFrequencyRange`, `calculateVolume`, `handleCaptureStatus`;
* `utils/extensionBridge.js` — the `ExtensionBridge` class
  (connection flag, ready announcements, listener registry);
* `extension/background.js` — `stopAudioCapture` and the `stopCapture`
  message handler;
* the `detectBeat` function of `IMPLEMENTATION.md` (the only copy of the
  beat detector in the repository).

Modelling conventions: JavaScript numbers are modelled as exact rationals
(`ℚ`); `Math.sqrt` forces `ℝ` for the volume value.  JavaScript division
by zero yields `NaN`; in `ℚ` it yields `0`.  The claims below only touch
divisions whose divisor is nonzero, except for empty-input cases where the
code guards explicitly, so the discrepancy is never load-bearing.
`Uint8Array` values are `ℕ` constrained to `≤ 255` by hypotheses.
-/

/-! ## Band index computation (`handleAudioData`, AudioContext.js lines 185-187) -/

/-- `Math.floor(freqArray.length * 0.1)` — end (exclusive) of the bass range. -/
def bassEnd (N : ℕ) : ℕ := ⌊(N : ℚ) * (1 / 10)⌋₊

/-- `Math.floor(freqArray.length * 0.5)` — end (exclusive) of the mid range. -/
def midEnd (N : ℕ) : ℕ := ⌊(N : ℚ) * (1 / 2)⌋₊

/-- Index set of the bass band: `calculateFrequencyRange(freqArray, 0, bassEnd)`. -/
def bassRangeIdx (N : ℕ) : Finset ℕ := Finset.Ico 0 (bassEnd N)

/-- Index set of the mid band: `calculateFrequencyRange(freqArray, bassEnd, midEnd)`. -/
def midRangeIdx (N : ℕ) : Finset ℕ := Finset.Ico (bassEnd N) (midEnd N)

/-- Index set of the treble band as the code computes it:
`calculateFrequencyRange(freqArray, midEnd, freqArray.length - 1)` — note the
`- 1` on the end bound (AudioContext.js line 187). -/
def trebleRangeIdx (N : ℕ) : Finset ℕ := Finset.Ico (midEnd N) (N - 1)

/-! ## `calculateFrequencyRange` (AudioContext.js lines 209-217) -/

/-- `calculateFrequencyRange(freqData, startIndex, endIndex)`: guard on an
empty array, then sum `freqData[i]` for `startIndex <= i < endIndex`, divide
by `endIndex - startIndex` and by 255. -/
def calculateFrequencyRange (freqData : List ℕ) (startIndex endIndex : ℕ) : ℚ :=
  if freqData.length = 0 then 0
  else ((Finset.Ico startIndex endIndex).sum fun i => (freqData.getD i 0 : ℚ))
        / ((endIndex : ℚ) - (startIndex : ℚ)) / 255

/-- The bass value computed by `handleAudioData`. -/
def bassOf (freq : List ℕ) : ℚ :=
  calculateFrequencyRange freq 0 (bassEnd freq.length)

/-- The mid value computed by `handleAudioData`. -/
def midOf (freq : List ℕ) : ℚ :=
  calculateFrequencyRange freq (bassEnd freq.length) (midEnd freq.length)

/-- The treble value computed by `handleAudioData` (end bound `length - 1`). -/
def trebleOf (freq : List ℕ) : ℚ :=
  calculateFrequencyRange freq (midEnd freq.length) (freq.length - 1)

/-! ## `calculateVolume` (AudioContext.js lines 220-230) -/

/-- One iteration's contribution: `value = (timeData[i] - 128) / 128`,
then `value * value`. -/
def sampleSquare (s : ℕ) : ℚ := (((s : ℚ) - 128) / 128) * (((s : ℚ) - 128) / 128)

/-- The loop accumulator `sum` of `calculateVolume`. -/
def volumeLoopSum (timeData : List ℕ) : ℚ :=
  timeData.foldl (fun sum s => sum + sampleSquare s) 0

/-- `calculateVolume(timeData)`: guard on empty, `rms = sqrt(sum / length)`,
return `Math.min(1, rms * 4)`. -/
noncomputable def calculateVolume (timeData : List ℕ) : ℝ :=
  if timeData.length = 0 then 0
  else min 1 (Real.sqrt ((volumeLoopSum timeData / (timeData.length : ℚ) : ℚ) : ℝ) * 4)

/-- Written from the claim's words, for comparison with `calculateVolume`:
the root-mean-square of the per-sample values `(sample - 128) / 128`. -/
noncomputable def rmsSpec (timeData : List ℕ) : ℝ :=
  Real.sqrt ((((timeData.map fun (s : ℕ) => (((s : ℚ) - 128) / 128) ^ 2).sum
      / (timeData.length : ℚ) : ℚ) : ℝ))

/-- The alternating test vector `[0, 255, 0, 255, ...]` of length 128. -/
def altSamples : List ℕ := (List.replicate 64 [0, 255]).flatten

/-! ## `detectBeat` (IMPLEMENTATION.md lines 636-680)

The detector's running state (`this.energyHistory`, `this.beatThreshold`,
`this.beatDecay`, `this.beatCutOff`), initialized on the first call with
`new Array(8).fill(0)`, the `threshold`/`decay` arguments and `0`. -/

structure BeatState where
  energyHistory : List ℚ
  beatThreshold : ℚ
  beatDecay : ℚ
  beatCutOff : ℚ
  deriving DecidableEq

/-- The state the first `detectBeat` call installs (defaults
`threshold = 0.15`, `decay = 0.98`). -/
def initBeatState (threshold decay : ℚ) : BeatState :=
  ⟨List.replicate 8 0, threshold, decay, 0⟩

/-- `energy`: sum of `dataArray[i]` for `i < Math.floor(length * 0.1)`,
divided by that bound. -/
def bassEnergy (dataArray : List ℕ) : ℚ :=
  (((dataArray.take (bassEnd dataArray.length)).map fun x => (x : ℚ)).sum)
    / (bassEnd dataArray.length : ℚ)

/-- `this.energyHistory` after `unshift(energy)` and `slice(0, 8)`. -/
def historyAfter (dataArray : List ℕ) (st : BeatState) : List ℚ :=
  (bassEnergy dataArray :: st.energyHistory).take 8

/-- `avgEnergy`: mean of the updated history. -/
def avgEnergyAfter (dataArray : List ℕ) (st : BeatState) : ℚ :=
  (historyAfter dataArray st).sum / ((historyAfter dataArray st).length : ℚ)

/-- Result record of `detectBeat` (`{ isBeat, energy, beatCutOff }` plus the
updated running state). -/
structure BeatResult where
  isBeat : Bool
  energy : ℚ
  state : BeatState
  deriving DecidableEq

/-- `detectBeat(dataArray, threshold, decay)` acting on explicit state:
update history, decay the cutoff, floor it at `avgEnergy * threshold`,
compare, and on a beat raise the cutoff to the current energy. -/
def detectBeat (dataArray : List ℕ) (st : BeatState) : BeatResult :=
  let energy := bassEnergy dataArray
  let history := historyAfter dataArray st
  let avgEnergy := avgEnergyAfter dataArray st
  let cutoffDecayed := st.beatCutOff * st.beatDecay
  let cutoffFloored := max cutoffDecayed (avgEnergy * st.beatThreshold)
  let isBeat := decide (cutoffFloored < energy)
  let cutoffFinal := if isBeat then energy else cutoffFloored
  ⟨isBeat, energy,
   { st with energyHistory := history, beatCutOff := cutoffFinal }⟩

/-! ## `ExtensionBridge` (webapp `utils/extensionBridge.js`)

State fields `isConnected`, `isCapturing`, `extensionVersion`; the
`connectionCheckInterval` timer calls `announceWebAppReady()` every 3000 ms
while `isConnected` is false.  Timer firings and incoming `handleMessage`
dispatches are the events of the machine; `window.postMessage` calls are the
emitted outputs. -/

structure BridgeState where
  isConnected : Bool
  isCapturing : Bool
  extensionVersion : Option ℕ
  deriving DecidableEq

/-- Bridge state right after the constructor. -/
def initBridgeState : BridgeState := ⟨false, false, none⟩

/-- Events consumed by the bridge: one timer firing of
`connectionCheckInterval`, or one incoming message dispatched by
`handleMessage` (by `data.type`). -/
inductive BridgeEvent where
  | tick
  | extensionLoaded (version : ℕ)
  | captureStatus (isCapturing : Bool)
  | audioData
  | errorReport
  | processingReady
  | readyAck
  | unknown
  deriving DecidableEq

/-- Messages the bridge posts to the window. -/
inductive BridgeOut where
  | webappReady
  deriving DecidableEq

/-- One step of the bridge: the timer callback posts `DARNVIZ_WEBAPP_READY`
iff `!this.isConnected`; `DARNVIZ_EXTENSION_LOADED`/`CONNECTED` runs
`handleExtensionConnected` (sets `isConnected = true`, stores the version);
`DARNVIZ_CAPTURE_STATUS` runs `handleCaptureStatus`; the remaining message
types change none of the modelled fields. -/
def bridgeStep (st : BridgeState) (e : BridgeEvent) : BridgeState × List BridgeOut :=
  match e with
  | .tick =>
      if st.isConnected then (st, []) else (st, [BridgeOut.webappReady])
  | .extensionLoaded v =>
      ({ st with isConnected := true, extensionVersion := some v }, [])
  | .captureStatus b =>
      ({ st with isCapturing := b }, [])
  | .audioData => (st, [])
  | .errorReport => (st, [])
  | .processingReady => (st, [])
  | .readyAck => (st, [])
  | .unknown => (st, [])

/-- Run the bridge over a sequence of events, keeping only the state. -/
def bridgeRun (st : BridgeState) (es : List BridgeEvent) : BridgeState :=
  es.foldl (fun s e => (bridgeStep s e).1) st

/-! ## Listener registry (`addListener` / `notifyListeners`,
extensionBridge.js lines 204-236)

`this.listeners` is a `Map<type, Set<callback>>`; a callback is modelled by
an identity (`ℕ`), and a map type whose absent keys read as the empty set
models `Map.has`/`Map.set` with a fresh `Set`.  `addListener` returns the
removal closure, which operates on whatever the registry holds when it is
invoked. -/

inductive ListenerType where
  | connected
  | captureStatus
  | audioData
  | errorEvent
  | processingReady
  deriving DecidableEq

abbrev ListenerMap : Type := ListenerType → Finset ℕ

/-- The empty registry (`new Map()`). -/
def emptyListeners : ListenerMap := fun _ => ∅

/-- `addListener(type, callback)`: add the callback to the type's set and
return the updated registry together with the removal function. -/
def addListener (m : ListenerMap) (type : ListenerType) (c : ℕ) :
    ListenerMap × (ListenerMap → ListenerMap) :=
  (fun t => if t = type then insert c (m t) else m t,
   fun m2 t => if t = type then (m2 t).erase c else m2 t)

/-- `notifyListeners(type, data)`: the set of `callback(data)` invocations
performed, as (callback, data) pairs. -/
def notifyListeners (m : ListenerMap) (type : ListenerType) (d : ℕ) :
    Finset (ℕ × ℕ) :=
  (m type).image fun c => (c, d)

/-! ## Background script (`extension/background.js`)

Module-level state `demoMode`, `visualizerTabId`, `isCapturing`,
`dataInterval` (modelled as whether the 50 ms interval is live).
`stopAudioCapture` clears the interval, resets `isCapturing` and broadcasts
the new status; the `stopCapture` message handler calls it and then responds
`{ success: true }`. -/

structure BgState where
  demoMode : Bool
  visualizerTabId : Option ℕ
  isCapturing : Bool
  dataInterval : Bool
  deriving DecidableEq

/-- `stopAudioCapture()` (background.js lines 233-249): clear `dataInterval`,
set `isCapturing = false`; `broadcastCaptureStatus()` only sends a message
and touches none of the module variables. -/
def stopAudioCapture (s : BgState) : BgState :=
  { s with dataInterval := false, isCapturing := false }

/-- The response object sent by `sendResponse`. -/
structure StopResponse where
  success : Bool
  deriving DecidableEq

/-- The `stopCapture` branch of the background message listener
(background.js lines 19-22): run `stopAudioCapture()` then
`sendResponse({ success: true })`. -/
def handleStopCapture (s : BgState) : BgState × StopResponse :=
  (stopAudioCapture s, ⟨true⟩)

/-! ## Render-side provider state (`AudioContext.js`)

The provider's React state: `isPlaying` and the `audioData` record. -/

structure AudioData where
  frequencyData : List ℕ
  timeData : List ℕ
  bass : ℚ
  mid : ℚ
  treble : ℚ
  volume : ℚ
  deriving DecidableEq

/-- The reset value installed when capture stops (empty typed arrays and
all-zero characteristics). -/
def emptyAudioData : AudioData := ⟨[], [], 0, 0, 0, 0⟩

structure ProviderState where
  isPlaying : Bool
  audioData : AudioData
  deriving DecidableEq

/-- Payload of a `captureStatus` bridge event as seen by the provider. -/
structure CaptureStatusMsg where
  isCapturing : Bool
  deriving DecidableEq

/-- `handleCaptureStatus(data)` (AudioContext.js lines 131-151):
`setIsPlaying(data.isCapturing)`, and when `data.isCapturing` is false reset
`audioData` to the empty record; otherwise `audioData` is left alone. -/
def handleCaptureStatus (msg : CaptureStatusMsg) (s : ProviderState) : ProviderState :=
  { isPlaying := msg.isCapturing,
    audioData := if msg.isCapturing then s.audioData else emptyAudioData }

/-! ## Concrete test vectors -/

/-- A ten-bin frame whose bass bin holds 200: constant bass energy 200 on
every `detectBeat` call. -/
def beatArr : List ℕ := [200, 0, 0, 0, 0, 0, 0, 0, 0, 0]

/-- The beat state installed by the first `detectBeat` call with the default
`threshold = 0.15`, `decay = 0.98`. -/
def beatSt0 : BeatState := initBeatState (3 / 20) (49 / 50)

/-- A registry already holding callback 2 for the `audioData` type. -/
def listenerM0 : ListenerMap :=
  (addListener emptyListeners ListenerType.audioData 2).1

/-! # Theorems -/

/-! ## Arithmetic of the band bounds -/

theorem bassEnd_eq (N : ℕ) : bassEnd N = N / 10 := by
  have h : (N : ℚ) * (1 / 10) = (N : ℚ) / (10 : ℕ) := by push_cast; ring
  rw [bassEnd, h, Nat.floor_div_nat, Nat.floor_natCast]

theorem midEnd_eq (N : ℕ) : midEnd N = N / 2 := by
  have h : (N : ℚ) * (1 / 2) = (N : ℚ) / (2 : ℕ) := by push_cast; ring
  rw [midEnd, h, Nat.floor_div_nat, Nat.floor_natCast]

/-- C1: the claim's index ranges fail on the code.  At `N = 10` the treble
call's end bound is `freqArray.length - 1 = 9`, not `10`, so the code's bands
are `[0,1)`, `[1,5)`, `[5,9)`: bin 9 belongs to no band and the three ranges
do not cover `[0, 10)`. -/
theorem treble_range_gap_at_ten :
    bassRangeIdx 10 = Finset.Ico 0 1 ∧
    midRangeIdx 10 = Finset.Ico 1 5 ∧
    trebleRangeIdx 10 = Finset.Ico 5 9 ∧
    9 ∉ bassRangeIdx 10 ∪ midRangeIdx 10 ∪ trebleRangeIdx 10 ∧
    bassRangeIdx 10 ∪ midRangeIdx 10 ∪ trebleRangeIdx 10 ≠ Finset.range 10 := by
  refine ⟨?_, ?_, ?_, ?_, ?_⟩ <;>
    simp only [bassRangeIdx, midRangeIdx, trebleRangeIdx, bassEnd_eq, midEnd_eq] <;>
    decide

/-! ## Bounds of the extracted features (C3) -/

theorem getD_le_255 (freq : List ℕ) (hfv : ∀ x ∈ freq, x ≤ 255) (i : ℕ) :
    freq.getD i 0 ≤ 255 := by
  rw [List.getD_eq_getElem?_getD]
  cases h : freq[i]? with
  | none => simp
  | some a => simpa using hfv a (List.getElem?_mem h)

theorem calculateFrequencyRange_bounds (freq : List ℕ) (s e : ℕ) (hse : s < e)
    (he : e ≤ freq.length) (hfv : ∀ x ∈ freq, x ≤ 255) :
    0 ≤ calculateFrequencyRange freq s e ∧ calculateFrequencyRange freq s e ≤ 1 := by
  have hlen : ¬ freq.length = 0 := by omega
  have hpos : (0 : ℚ) < (e : ℚ) - (s : ℚ) := by
    have : (s : ℚ) < (e : ℚ) := by exact_mod_cast hse
    linarith
  have hsumnn : (0 : ℚ) ≤ (Finset.Ico s e).sum fun i => (freq.getD i 0 : ℚ) :=
    Finset.sum_nonneg fun i _ => by positivity
  have hsumle : ((Finset.Ico s e).sum fun i => (freq.getD i 0 : ℚ))
      ≤ ((e : ℚ) - (s : ℚ)) * 255 := by
    calc ((Finset.Ico s e).sum fun i => (freq.getD i 0 : ℚ))
        ≤ (Finset.Ico s e).sum fun _ => (255 : ℚ) :=
          Finset.sum_le_sum fun i _ => by exact_mod_cast getD_le_255 freq hfv i
      _ = ((e - s : ℕ) : ℚ) * 255 := by
          rw [Finset.sum_const, Nat.card_Ico, nsmul_eq_mul]
      _ = ((e : ℚ) - (s : ℚ)) * 255 := by
          rw [Nat.cast_sub hse.le]
  rw [calculateFrequencyRange, if_neg hlen]
  constructor
  · exact div_nonneg (div_nonneg hsumnn hpos.le) (by norm_num)
  · rw [div_le_one (by norm_num : (0 : ℚ) < 255), div_le_iff₀ hpos]
    linarith

/-- C3: on a valid frame (at least 10 bins, all values in `[0, 255]`,
non-empty time samples) every extracted characteristic lies in `[0, 1]` and
the beat flag is a boolean. -/
theorem featureSet_bounds (freq time : List ℕ) (hN : 10 ≤ freq.length)
    (hfv : ∀ x ∈ freq, x ≤ 255) (hne : time ≠ [])
    (htv : ∀ x ∈ time, x ≤ 255) :
    (0 ≤ bassOf freq ∧ bassOf freq ≤ 1) ∧
    (0 ≤ midOf freq ∧ midOf freq ≤ 1) ∧
    (0 ≤ trebleOf freq ∧ trebleOf freq ≤ 1) ∧
    (0 ≤ calculateVolume time ∧ calculateVolume time ≤ 1) ∧
    ∀ st : BeatState, (detectBeat freq st).isBeat = true ∨
      (detectBeat freq st).isBeat = false := by
  refine ⟨?_, ?_, ?_, ?_, ?_⟩
  · rw [bassOf]
    exact calculateFrequencyRange_bounds freq 0 _ (by rw [bassEnd_eq]; omega)
      (by rw [bassEnd_eq]; omega) hfv
  · rw [midOf]
    exact calculateFrequencyRange_bounds freq _ _
      (by rw [bassEnd_eq, midEnd_eq]; omega) (by rw [midEnd_eq]; omega) hfv
  · rw [trebleOf]
    exact calculateFrequencyRange_bounds freq _ _ (by rw [midEnd_eq]; omega)
      (by omega) hfv
  · have hlen : ¬ time.length = 0 := by simpa [List.length_eq_zero] using hne
    rw [calculateVolume, if_neg hlen]
    refine ⟨le_min (by norm_num) (by positivity), min_le_left _ _⟩
  · intro st
    cases (detectBeat freq st).isBeat
    · right; rfl
    · left; rfl

/-- Witness for C3 at a concrete frame: ten max-valued bins and the time
samples `[0, 255]`. -/
theorem featureSet_bounds_witness :
    (0 ≤ bassOf (List.replicate 10 255) ∧ bassOf (List.replicate 10 255) ≤ 1) ∧
    (0 ≤ midOf (List.replicate 10 255) ∧ midOf (List.replicate 10 255) ≤ 1) ∧
    (0 ≤ trebleOf (List.replicate 10 255) ∧ trebleOf (List.replicate 10 255) ≤ 1) ∧
    (0 ≤ calculateVolume [0, 255] ∧ calculateVolume [0, 255] ≤ 1) ∧
    ∀ st : BeatState, (detectBeat (List.replicate 10 255) st).isBeat = true ∨
      (detectBeat (List.replicate 10 255) st).isBeat = false :=
  featureSet_bounds (List.replicate 10 255) [0, 255] (by decide) (by decide)
    (by decide) (by decide)

/-- C5: feature extraction on an empty frame is total and yields the all-zero
feature set with no beat: both calculators return 0 on an empty array (their
explicit guards), each band value of an empty frame is 0, and `detectBeat`
on an empty frame with a fresh running state reports no beat. -/
theorem empty_frame_features_zero :
    (∀ s e : ℕ, calculateFrequencyRange [] s e = 0) ∧
    bassOf [] = 0 ∧ midOf [] = 0 ∧ trebleOf [] = 0 ∧
    calculateVolume [] = 0 ∧
    ∀ threshold decay : ℚ,
      (detectBeat [] (initBeatState threshold decay)).isBeat = false := by
  refine ⟨fun s e => rfl, rfl, rfl, rfl, ?_, ?_⟩
  · rw [calculateVolume]
    simp
  · intro threshold decay
    simp [detectBeat, bassEnergy, historyAfter, avgEnergyAfter, initBeatState,
      bassEnd_eq, List.take, List.replicate]

/-! ## Volume versus the RMS formula (C4) -/

theorem volumeLoopSum_eq (xs : List ℕ) :
    volumeLoopSum xs = (xs.map sampleSquare).sum := by
  have h : ∀ (ys : List ℕ) (a : ℚ),
      ys.foldl (fun sum s => sum + sampleSquare s) a = a + (ys.map sampleSquare).sum := by
    intro ys
    induction ys with
    | nil => simp
    | cons x ys ih => intro a; simp [List.foldl_cons, ih, add_assoc]
  rw [volumeLoopSum, h]
  simp

theorem altSamples_length : altSamples.length = 128 := by
  rw [altSamples, List.length_flatten, List.map_replicate, List.sum_replicate]
  norm_num

theorem volumeLoopSum_altSamples : volumeLoopSum altSamples = 32513 / 256 := by
  rw [volumeLoopSum_eq, altSamples, List.map_flatten, List.map_replicate,
    List.sum_flatten, List.map_replicate, List.sum_replicate]
  norm_num [sampleSquare]

/-- On a list whose mean square is at least `1/16`, the `rms * 4` term
reaches the clamp and `calculateVolume` returns exactly 1. -/
theorem calculateVolume_eq_one (timeData : List ℕ) (h : ¬ timeData.length = 0)
    (hge : (1 / 16 : ℚ) ≤ volumeLoopSum timeData / (timeData.length : ℚ)) :
    calculateVolume timeData = 1 := by
  rw [calculateVolume, if_neg h]
  apply min_eq_left
  have hge' : ((1 / 16 : ℚ) : ℝ) ≤
      ((volumeLoopSum timeData / (timeData.length : ℚ) : ℚ) : ℝ) := by
    exact_mod_cast hge
  have h14 : (1 / 4 : ℝ) ≤
      Real.sqrt ((volumeLoopSum timeData / (timeData.length : ℚ) : ℚ) : ℝ) := by
    have hs := Real.sqrt_le_sqrt hge'
    have : Real.sqrt ((1 / 16 : ℚ) : ℝ) = 1 / 4 := by
      rw [show (((1 / 16 : ℚ) : ℝ)) = (1 / 4 : ℝ) ^ 2 by norm_num,
        Real.sqrt_sq (by norm_num : (0 : ℝ) ≤ 1 / 4)]
    linarith [this ▸ hs]
  linarith

/-- C4: `calculateVolume` equals the claimed `min(1, 4 * RMS)` formula on
every non-empty sample list, and on the alternating `[0, 255, 0, 255, ...]`
vector of length 128 it clamps to exactly 1. -/
theorem calculateVolume_eq_min_rms (timeData : List ℕ) (h : timeData ≠ []) :
    calculateVolume timeData = min 1 (4 * rmsSpec timeData) ∧
    calculateVolume altSamples = 1 := by
  constructor
  · have hlen : ¬ timeData.length = 0 := by simpa [List.length_eq_zero] using h
    rw [calculateVolume, if_neg hlen, rmsSpec, volumeLoopSum_eq]
    have hmap : timeData.map sampleSquare
        = timeData.map fun (s : ℕ) => (((s : ℚ) - 128) / 128) ^ 2 := by
      apply List.map_congr_left
      intro a _
      rw [sampleSquare, sq]
    rw [hmap, mul_comm]
  · apply calculateVolume_eq_one
    · rw [altSamples_length]; norm_num
    · rw [volumeLoopSum_altSamples, altSamples_length]
      norm_num

/-- Witness for C4 at the alternating length-128 vector itself. -/
theorem calculateVolume_eq_min_rms_witness :
    calculateVolume altSamples = min 1 (4 * rmsSpec altSamples) ∧
    calculateVolume altSamples = 1 :=
  calculateVolume_eq_min_rms altSamples (by decide)

/-! ## Beat detector on a sustained plateau (C2) -/

theorem detectBeat_isBeat_iff (arr : List ℕ) (st : BeatState) :
    (detectBeat arr st).isBeat = true ↔
      max (st.beatCutOff * st.beatDecay) (avgEnergyAfter arr st * st.beatThreshold)
        < bassEnergy arr := by
  simp [detectBeat]

theorem detectBeat_cutoff_of_beat (arr : List ℕ) (st : BeatState)
    (hb : (detectBeat arr st).isBeat = true) :
    (detectBeat arr st).state.beatCutOff = bassEnergy arr := by
  have h := (detectBeat_isBeat_iff arr st).mp hb
  simp [detectBeat, h]

theorem detectBeat_state_threshold (arr : List ℕ) (st : BeatState) :
    (detectBeat arr st).state.beatThreshold = st.beatThreshold := by
  simp [detectBeat]

theorem detectBeat_state_decay (arr : List ℕ) (st : BeatState) :
    (detectBeat arr st).state.beatDecay = st.beatDecay := by
  simp [detectBeat]

theorem bassEnergy_beatArr : bassEnergy beatArr = 200 := by
  simp [bassEnergy, beatArr, bassEnd_eq, List.take]

theorem detectBeat_beatArr_first :
    detectBeat beatArr beatSt0 =
      ⟨true, 200, ⟨[200, 0, 0, 0, 0, 0, 0, 0], 3 / 20, 49 / 50, 200⟩⟩ := by
  simp only [detectBeat, historyAfter, avgEnergyAfter, beatSt0, initBeatState,
    bassEnergy, beatArr, bassEnd_eq]
  norm_num [List.take, List.replicate, max_def]

theorem detectBeat_beatArr_second :
    detectBeat beatArr (detectBeat beatArr beatSt0).state =
      ⟨true, 200, ⟨[200, 200, 0, 0, 0, 0, 0, 0], 3 / 20, 49 / 50, 200⟩⟩ := by
  rw [detectBeat_beatArr_first]
  simp only [detectBeat, historyAfter, avgEnergyAfter, bassEnergy, beatArr, bassEnd_eq]
  norm_num [List.take, max_def]

/-- C2 counterexample: a constant bass energy of 200 > 0 sustained over two
consecutive `detectBeat` calls on the same running state (fresh state,
default threshold 0.15 and decay 0.98) reports `isBeat = true` on BOTH
calls, not on at most the first: the cutoff raised to 200 decays to
`0.98 * 200 = 196 < 200` before the second comparison. -/
theorem beat_retrigger_counterexample :
    bassEnergy beatArr = 200 ∧ (0 : ℚ) < 200 ∧
    (detectBeat beatArr beatSt0).isBeat = true ∧
    (detectBeat beatArr (detectBeat beatArr beatSt0).state).isBeat = true := by
  refine ⟨bassEnergy_beatArr, by norm_num, ?_, ?_⟩
  · rw [detectBeat_beatArr_first]
  · rw [detectBeat_beatArr_second]

/-- C2 amended: after a call that detects a beat at energy `E`, the cutoff is
raised to `E`; but on the immediately following call with the same constant
energy `E > 0` the cutoff first decays to `0.98 * E < E`, so `isBeat` is
true again whenever the floor `avgEnergy * threshold` also stays below `E` —
the raise does not suppress the next tick of a sustained plateau. -/
theorem detectBeat_plateau_retrigger (arr : List ℕ) (st : BeatState)
    (hdecay : st.beatDecay = 49 / 50)
    (hE : 0 < bassEnergy arr)
    (hb : (detectBeat arr st).isBeat = true)
    (havg : avgEnergyAfter arr (detectBeat arr st).state * st.beatThreshold
      < bassEnergy arr) :
    (detectBeat arr st).state.beatCutOff = bassEnergy arr ∧
    (detectBeat arr (detectBeat arr st).state).isBeat = true := by
  have hcut := detectBeat_cutoff_of_beat arr st hb
  refine ⟨hcut, ?_⟩
  rw [detectBeat_isBeat_iff, hcut, detectBeat_state_decay, detectBeat_state_threshold]
  apply max_lt
  · rw [hdecay]
    linarith
  · exact havg

/-- Witness for the amended C2 at the concrete plateau `beatArr` from the
fresh default state. -/
theorem detectBeat_plateau_retrigger_witness :
    (detectBeat beatArr beatSt0).state.beatCutOff = bassEnergy beatArr ∧
    (detectBeat beatArr (detectBeat beatArr beatSt0).state).isBeat = true :=
  detectBeat_plateau_retrigger beatArr beatSt0 rfl
    (by rw [bassEnergy_beatArr]; norm_num)
    (by rw [detectBeat_beatArr_first])
    (by
      rw [detectBeat_beatArr_first, bassEnergy_beatArr]
      simp only [avgEnergyAfter, historyAfter, bassEnergy, beatArr, bassEnd_eq, beatSt0,
        initBeatState]
      norm_num [List.take])

/-! ## Energy history capacity (C8) -/

/-- C8: after every `detectBeat` call the history is the newest energy
consed onto the previous history truncated to capacity 8; its length never
exceeds 8, and once the capacity is reached the oldest (last) entry is
evicted. -/
theorem energyHistory_bounded (arr : List ℕ) (st : BeatState) :
    (detectBeat arr st).state.energyHistory.length ≤ 8 ∧
    (detectBeat arr st).state.energyHistory
      = (bassEnergy arr :: st.energyHistory).take 8 ∧
    (8 ≤ st.energyHistory.length →
      (detectBeat arr st).state.energyHistory
        = bassEnergy arr :: st.energyHistory.take 7) := by
  refine ⟨?_, ?_, ?_⟩
  · simp only [detectBeat, historyAfter]
    rw [List.length_take]
    omega
  · simp [detectBeat, historyAfter]
  · intro h
    simp only [detectBeat, historyAfter]
    rw [show (8 : ℕ) = 7 + 1 from rfl, List.take_succ_cons]

/-- Witness for C8 at `beatArr` and the fresh state, whose history is
already at capacity 8. -/
theorem energyHistory_bounded_witness :
    (detectBeat beatArr beatSt0).state.energyHistory.length ≤ 8 ∧
    (detectBeat beatArr beatSt0).state.energyHistory
      = (bassEnergy beatArr :: beatSt0.energyHistory).take 8 ∧
    (detectBeat beatArr beatSt0).state.energyHistory
      = bassEnergy beatArr :: beatSt0.energyHistory.take 7 :=
  ⟨(energyHistory_bounded beatArr beatSt0).1,
   (energyHistory_bounded beatArr beatSt0).2.1,
   (energyHistory_bounded beatArr beatSt0).2.2 (by simp [beatSt0, initBeatState])⟩

/-! ## Idempotent stop (C6) -/

/-- C6: the `stopCapture` message handler responds `{success: true}`; when
capture is already stopped it changes nothing; it never touches `demoMode`
or `visualizerTabId`; and running it twice equals running it once. -/
theorem stopCapture_idempotent (s : BgState)
    (h : s.isCapturing = false ∧ s.dataInterval = false) :
    (handleStopCapture s).1 = s ∧
    (handleStopCapture s).2.success = true ∧
    (∀ t : BgState, (handleStopCapture (handleStopCapture t).1).1
      = (handleStopCapture t).1) ∧
    (∀ t : BgState, (handleStopCapture t).1.demoMode = t.demoMode ∧
      (handleStopCapture t).1.visualizerTabId = t.visualizerTabId ∧
      (handleStopCapture t).1.isCapturing = false ∧
      (handleStopCapture t).1.dataInterval = false) := by
  obtain ⟨h1, h2⟩ := h
  refine ⟨?_, rfl, fun t => rfl, fun t => ⟨rfl, rfl, rfl, rfl⟩⟩
  cases s
  simp_all [handleStopCapture, stopAudioCapture]

/-- Witness for C6 at an already-stopped state with demo mode on and a bound
visualizer tab. -/
theorem stopCapture_idempotent_witness :
    (handleStopCapture ⟨true, some 5, false, false⟩).1
      = (⟨true, some 5, false, false⟩ : BgState) ∧
    (handleStopCapture ⟨true, some 5, false, false⟩).2.success = true :=
  ⟨(stopCapture_idempotent ⟨true, some 5, false, false⟩ ⟨rfl, rfl⟩).1,
   (stopCapture_idempotent ⟨true, some 5, false, false⟩ ⟨rfl, rfl⟩).2.1⟩

/-! ## Ready announcement policy (C7) -/

theorem bridgeStep_preserves_connected (t : BridgeState) (e : BridgeEvent)
    (ht : t.isConnected = true) : (bridgeStep t e).1.isConnected = true := by
  cases e <;> simp [bridgeStep, ht]

/-- C7: while not connected every timer tick posts the
`DARNVIZ_WEBAPP_READY` announcement; once `isConnected` is true it stays
true across any further events (nothing ever clears it) and a timer tick
posts nothing. -/
theorem ready_announce_policy (s : BridgeState) (es : List BridgeEvent) :
    (s.isConnected = false →
      (bridgeStep s BridgeEvent.tick).2 = [BridgeOut.webappReady]) ∧
    (s.isConnected = true → (bridgeRun s es).isConnected = true ∧
      (bridgeStep (bridgeRun s es) BridgeEvent.tick).2 = []) := by
  constructor
  · intro h
    simp [bridgeStep, h]
  · intro h
    have hmono : ∀ (evs : List BridgeEvent) (t : BridgeState),
        t.isConnected = true → (bridgeRun t evs).isConnected = true := by
      intro evs
      induction evs with
      | nil => intro t ht; simpa [bridgeRun] using ht
      | cons e evs ih =>
        intro t ht
        simp only [bridgeRun, List.foldl_cons]
        exact ih (bridgeStep t e).1 (bridgeStep_preserves_connected t e ht)
    have h1 := hmono es s h
    exact ⟨h1, by simp [bridgeStep, h1]⟩

/-- Witness for C7: a disconnected bridge posts ready on a tick, and a
connected bridge stays silent after a run of further events. -/
theorem ready_announce_policy_witness :
    (bridgeStep initBridgeState BridgeEvent.tick).2 = [BridgeOut.webappReady] ∧
    ((bridgeRun ⟨true, false, some 1⟩ [BridgeEvent.tick,
        BridgeEvent.captureStatus true, BridgeEvent.audioData,
        BridgeEvent.unknown]).isConnected = true ∧
      (bridgeStep (bridgeRun ⟨true, false, some 1⟩ [BridgeEvent.tick,
        BridgeEvent.captureStatus true, BridgeEvent.audioData,
        BridgeEvent.unknown]) BridgeEvent.tick).2 = []) :=
  ⟨(ready_announce_policy initBridgeState []).1 rfl,
   (ready_announce_policy ⟨true, false, some 1⟩ [BridgeEvent.tick,
      BridgeEvent.captureStatus true, BridgeEvent.audioData,
      BridgeEvent.unknown]).2 rfl⟩

/-! ## Listener registry (C9) -/

/-- C9: `addListener` registers the callback and returns a removal function;
callbacks already registered for the type are still notified; after removal
the removed callback no longer receives notifications while every other
registered callback still does. -/
theorem listener_registry_correct (m : ListenerMap) (t : ListenerType) (c d : ℕ) :
    ((c, d) ∈ notifyListeners (addListener m t c).1 t d) ∧
    (∀ c2 : ℕ, c2 ∈ m t → (c2, d) ∈ notifyListeners (addListener m t c).1 t d) ∧
    ((c, d) ∉ notifyListeners ((addListener m t c).2 (addListener m t c).1) t d) ∧
    (∀ c2 : ℕ, c2 ∈ (addListener m t c).1 t → c2 ≠ c →
      (c2, d) ∈ notifyListeners ((addListener m t c).2 (addListener m t c).1) t d) := by
  refine ⟨?_, ?_, ?_, ?_⟩ <;>
      simp [notifyListeners, addListener, Finset.mem_image, Finset.mem_insert,
        Finset.mem_erase]
  · exact fun c2 h => Or.inr h
  · exact fun a h hne => ⟨hne, h⟩

/-- Witness for C9: register callback 2, then callback 1, remove 1: a
notification reaches 1 before removal, and afterwards reaches 2 but not 1. -/
theorem listener_registry_correct_witness :
    ((1, 7) ∈ notifyListeners
      (addListener listenerM0 ListenerType.audioData 1).1 ListenerType.audioData 7) ∧
    ((1, 7) ∉ notifyListeners
      ((addListener listenerM0 ListenerType.audioData 1).2
        (addListener listenerM0 ListenerType.audioData 1).1)
      ListenerType.audioData 7) ∧
    ((2, 7) ∈ notifyListeners
      ((addListener listenerM0 ListenerType.audioData 1).2
        (addListener listenerM0 ListenerType.audioData 1).1)
      ListenerType.audioData 7) :=
  ⟨(listener_registry_correct listenerM0 ListenerType.audioData 1 7).1,
   (listener_registry_correct listenerM0 ListenerType.audioData 1 7).2.2.1,
   (listener_registry_correct listenerM0 ListenerType.audioData 1 7).2.2.2 2
     (by decide) (by decide)⟩

/-! ## Capture-status reset (C10) -/

/-- C10: a `captureStatus` update with `isCapturing = false` resets the
provider state (empty arrays, zero characteristics, `isPlaying = false`);
with `isCapturing = true` the audio data fields are left unchanged. -/
theorem captureStatus_reset (msg : CaptureStatusMsg) (s : ProviderState) :
    (msg.isCapturing = false →
      (handleCaptureStatus msg s).isPlaying = false ∧
      (handleCaptureStatus msg s).audioData.frequencyData = [] ∧
      (handleCaptureStatus msg s).audioData.timeData = [] ∧
      (handleCaptureStatus msg s).audioData.bass = 0 ∧
      (handleCaptureStatus msg s).audioData.mid = 0 ∧
      (handleCaptureStatus msg s).audioData.treble = 0 ∧
      (handleCaptureStatus msg s).audioData.volume = 0) ∧
    (msg.isCapturing = true →
      (handleCaptureStatus msg s).audioData = s.audioData ∧
      (handleCaptureStatus msg s).isPlaying = true) := by
  constructor
  · intro h
    simp [handleCaptureStatus, h, emptyAudioData]
  · intro h
    simp [handleCaptureStatus, h]

/-- Witness for C10 at a playing state holding non-trivial audio data. -/
theorem captureStatus_reset_witness :
    ((handleCaptureStatus ⟨false⟩ ⟨true, ⟨[3], [4], 1, 1, 1, 1⟩⟩).isPlaying = false ∧
     (handleCaptureStatus ⟨false⟩ ⟨true, ⟨[3], [4], 1, 1, 1, 1⟩⟩).audioData.frequencyData = [] ∧
     (handleCaptureStatus ⟨false⟩ ⟨true, ⟨[3], [4], 1, 1, 1, 1⟩⟩).audioData.timeData = [] ∧
     (handleCaptureStatus ⟨false⟩ ⟨true, ⟨[3], [4], 1, 1, 1, 1⟩⟩).audioData.bass = 0 ∧
     (handleCaptureStatus ⟨false⟩ ⟨true, ⟨[3], [4], 1, 1, 1, 1⟩⟩).audioData.mid = 0 ∧
     (handleCaptureStatus ⟨false⟩ ⟨true, ⟨[3], [4], 1, 1, 1, 1⟩⟩).audioData.treble = 0 ∧
     (handleCaptureStatus ⟨false⟩ ⟨true, ⟨[3], [4], 1, 1, 1, 1⟩⟩).audioData.volume = 0) ∧
    ((handleCaptureStatus ⟨true⟩ ⟨true, ⟨[3], [4], 1, 1, 1, 1⟩⟩).audioData
        = (⟨true, ⟨[3], [4], 1, 1, 1, 1⟩⟩ : ProviderState).audioData ∧
     (handleCaptureStatus ⟨true⟩ ⟨true, ⟨[3], [4], 1, 1, 1, 1⟩⟩).isPlaying = true) :=
  ⟨(captureStatus_reset ⟨false⟩ ⟨true, ⟨[3], [4], 1, 1, 1, 1⟩⟩).1 rfl,
   (captureStatus_reset ⟨true⟩ ⟨true, ⟨[3], [4], 1, 1, 1, 1⟩⟩).2 rfl⟩
